import Mathlib

/-!
Shallow embedding of the MES batch-tracking service (`src/mes`): the domain
model (`models.py`), the QMIB remote client with tenacity-based retry
(`connectors/qmib_client.py`), the batch record store (`services/batch_service.py`)
and the orchestration layer (`services/integration_service.py`).

Conventions of the embedding:
* wall-clock timestamps (`datetime`) become `Nat`;
* a JSON mapping of scalar values (`Dict[str, str | float | int | bool | None]`)
  becomes an association list over a scalar variant type;
* the SQL table keyed by `batch_id` becomes a `List BatchRecord` looked up by
  `List.find?` on `batch_id` (primary-key lookup), with the single matched row
  replaced in place on update;
* Python exceptions become an explicit `MESError` carried in `Except`; stateful
  operations that may raise after committing return the post-state paired with
  the `Except` result, so a raised error still exposes the committed store;
* the network seen by one `_request` call becomes a transcript
  `Nat → AttemptOutcome`: what the transport does on the 0th, 1st, ... attempt
  (either raise an `httpx.HTTPError`-style transport exception, or deliver an
  HTTP response with a status code and an optional JSON body — `none` models an
  empty response body).
-/

namespace MES

/-- Scalar JSON value, per `models.py`: `data` maps strings to
`str | float | int | bool | None` (floats embedded as `Int` rationals are not
needed by any property; `int` covers the numeric case). -/
inductive DataVal where
  | str (s : String)
  | int (n : Int)
  | bool (b : Bool)
  | null
deriving DecidableEq, Repr

/-- A free-form JSON mapping of scalar values. -/
abbrev DataMap := List (String × DataVal)

/-- A response payload: a JSON mapping, as the remote operations produce. -/
abbrev Payload := DataMap

/-- `BatchStatus` from `models.py`: lifecycle states for a batch execution. -/
inductive BatchStatus where
  | planned
  | in_progress
  | completed
  | halted
  | aborted
deriving DecidableEq, Repr

/-- `BatchRecord` from `models.py`, with the pydantic field defaults
(`status = PLANNED`, timestamps `None`, empty `data` and `equipment`). -/
structure BatchRecord where
  batch_id : String
  recipe_id : String
  status : BatchStatus := .planned
  started_at : Option Nat := none
  completed_at : Option Nat := none
  data : DataMap := []
  equipment : List String := []
deriving DecidableEq, Repr

/-- Exception classes raised by the embedded code paths:
`KeyError` (record store lookups), `ValueError` (publish guard),
`httpx` transport errors re-raised by tenacity, `httpx.HTTPStatusError`
from `raise_for_status`, and `QMIBAuthenticationError`. -/
structure TransportErr where
  msg : String
deriving DecidableEq, Repr

inductive MESError where
  | keyError (msg : String)
  | valueError (msg : String)
  | transport (e : TransportErr)
  | httpStatus (code : Nat)
  | authFailure
deriving DecidableEq, Repr

/-- HTTP response as `QMIBClient._request` observes it: a status code and the
body, where `none` models `response.content` empty and `some p` a body whose
JSON parse is the mapping `p`. -/
structure HttpResp where
  status : Nat
  body : Option Payload
deriving DecidableEq, Repr

/-- What `self._client.request(...)` does on one attempt: raise an
`httpx.HTTPError` subclass (connection error, timeout, ...) or return a
response. -/
inductive AttemptOutcome where
  | transportError (e : TransportErr)
  | response (r : HttpResp)
deriving DecidableEq, Repr

/-- The tenacity `AsyncRetrying` loop of `QMIBClient._request`:
`stop=stop_after_attempt(3)`, `retry=retry_if_exception_type(httpx.HTTPError)`,
`reraise=True`. `idx` is the 0-based index of the attempt about to run, `rem`
the attempts still allowed. A raised transport error is retried while budget
remains and re-raised unchanged once `stop_after_attempt` fires; a received
response ends the loop. Returns the response together with the total number of
attempts made. -/
def runAttempts (outcomes : Nat → AttemptOutcome) :
    Nat → Nat → Except TransportErr (HttpResp × Nat)
  | _, 0 => .error ⟨"retry budget exhausted"⟩
  | idx, rem + 1 =>
    match outcomes idx with
    | .transportError e => if rem = 0 then .error e else runAttempts outcomes (idx + 1) rem
    | .response r => .ok (r, idx + 1)

/-- `QMIBClient._request`: run the tenacity loop with 3 attempts; after the
loop, a 401 response raises `QMIBAuthenticationError`, `raise_for_status`
raises `httpx.HTTPStatusError` on any non-2xx status, and otherwise the parsed
JSON body is returned when `response.content` is nonempty, `None` otherwise.
The second component is the number of transport attempts performed. -/
def qmibRequest (outcomes : Nat → AttemptOutcome) :
    Except MESError (Option Payload) × Nat :=
  match runAttempts outcomes 0 3 with
  | .error e => (.error (.transport e), 3)
  | .ok (r, n) =>
    if r.status = 401 then (.error .authFailure, n)
    else if 200 ≤ r.status ∧ r.status < 300 then (.ok r.body, n)
    else (.error (.httpStatus r.status), n)

/-- `QMIBClient.fetch_equipment_state`: delegates to `_request("GET",
"/equipment/{id}")`; the method and path only shape the wire exchange, which
the transcript abstracts. -/
def fetch_equipment_state (outcomes : Nat → AttemptOutcome) :
    Except MESError (Option Payload) × Nat :=
  qmibRequest outcomes

/-- `QMIBClient.publish_batch_record`: delegates to `_request("POST",
"/batches", json=payload)`. -/
def publish_batch_record (outcomes : Nat → AttemptOutcome) :
    Except MESError (Option Payload) × Nat :=
  qmibRequest outcomes

/-- `QMIBClient.fetch_batch_template`: delegates to `_request("GET",
"/templates/{id}")`. -/
def fetch_batch_template (outcomes : Nat → AttemptOutcome) :
    Except MESError (Option Payload) × Nat :=
  qmibRequest outcomes

/-- `QMIBClient.acknowledge_event`: delegates to `_request("POST",
"/events/{id}/acknowledge", json=ack)`. -/
def acknowledge_event (outcomes : Nat → AttemptOutcome) :
    Except MESError (Option Payload) × Nat :=
  qmibRequest outcomes

/-- The `batch_records` table, a list of rows keyed by the primary key
`batch_id`. -/
abbrev Store := List BatchRecord

/-- The predicate `session.get(BatchRecordORM, id)` selects by: the row whose
primary key equals `id`. -/
def keyIs (id : String) (r : BatchRecord) : Bool :=
  r.batch_id == id

/-- Replace the (first) row with primary key `id` by `r'`, leaving every other
row untouched — the effect of mutating the ORM row returned by `session.get`
and committing. -/
def replaceById : Store → String → BatchRecord → Store
  | [], _, _ => []
  | q :: rest, id, r' =>
    if keyIs id q then r' :: rest else q :: replaceById rest id r'

/-- The field assignments of `BatchService.upsert_record`: every column except
the primary key `batch_id` is overwritten from the incoming record. -/
def applyUpsertFields (old rec : BatchRecord) : BatchRecord :=
  { old with
    recipe_id := rec.recipe_id
    status := rec.status
    started_at := rec.started_at
    completed_at := rec.completed_at
    data := rec.data
    equipment := rec.equipment }

/-- The first half of `upsert_record` when `session.get` finds an existing row:
that row's mutable columns are overwritten, its key is untouched. -/
def upsertReplace : Store → BatchRecord → Store
  | [], _ => []
  | q :: rest, rec =>
    if keyIs rec.batch_id q then applyUpsertFields q rec :: rest
    else q :: upsertReplace rest rec

/-- `BatchService.upsert_record`: update the existing row when the key is
present, otherwise create `BatchRecordORM(batch_id=record.batch_id)` and
assign every mutable column from the record. -/
def upsert_record (s : Store) (rec : BatchRecord) : Store :=
  if s.any (keyIs rec.batch_id) then upsertReplace s rec
  else s ++ [applyUpsertFields { batch_id := rec.batch_id, recipe_id := rec.recipe_id } rec]

/-- The `KeyError` message raised by `BatchService` on a missing `batch_id`. -/
def notFoundMsg (id : String) : String :=
  "Batch record " ++ id ++ " not found"

/-- `BatchService.get`: fetch the row with the given key or raise `KeyError`. -/
def get (s : Store) (id : String) : Except MESError BatchRecord :=
  match s.find? (keyIs id) with
  | some r => .ok r
  | none => .error (.keyError (notFoundMsg id))

/-- The two timestamp guards of `BatchService.update_status`, applied to the
fetched row: `status` is always overwritten; `started_at` is set only when the
target is IN_PROGRESS *and* a (truthy, i.e. non-`None`) timestamp was passed;
`completed_at` likewise for COMPLETED, ABORTED or HALTED. -/
def applyStatusUpdate (r : BatchRecord) (status : BatchStatus) (ts : Option Nat) :
    BatchRecord :=
  let r1 := { r with status := status }
  let r2 :=
    match status, ts with
    | .in_progress, some t => { r1 with started_at := some t }
    | _, _ => r1
  match status, ts with
  | .completed, some t => { r2 with completed_at := some t }
  | .aborted, some t => { r2 with completed_at := some t }
  | .halted, some t => { r2 with completed_at := some t }
  | _, _ => r2

/-- `BatchService.update_status`: look up the row by key (raising `KeyError`
before any write when absent, so the store is returned unchanged), apply the
status and timestamp rules, commit the single mutated row, and return the
refreshed record. The store is threaded explicitly: the first component is the
table after the call, whether it raised or not. -/
def update_status (s : Store) (id : String) (status : BatchStatus)
    (ts : Option Nat) : Store × Except MESError BatchRecord :=
  match s.find? (keyIs id) with
  | none => (s, .error (.keyError (notFoundMsg id)))
  | some r =>
    let r' := applyStatusUpdate r status ts
    (replaceById s id r', .ok r')

/-- `record_from_template`: the Python template payload is a dict read with
`template.get(key, default)`; an absent key is `none`. -/
structure TemplatePayload where
  id : Option String := none
  defaultData : Option DataMap := none
  equipment : Option (List String) := none
deriving DecidableEq, Repr

/-- `record_from_template` from `batch_service.py`: build a fresh record from
a QMIB template payload, defaulting each absent key, with the remaining
`BatchRecord` fields taking their pydantic defaults. -/
def record_from_template (template : TemplatePayload) (batch_id : String) :
    BatchRecord :=
  let recipe_id := template.id.getD "unknown-recipe"
  let default_data := template.defaultData.getD []
  let equipment := template.equipment.getD []
  { batch_id := batch_id, recipe_id := recipe_id, data := default_data,
    equipment := equipment }

/-- `IntegrationService.publish_batch_completion`: re-fetch the record
(`KeyError` propagates), guard that it is COMPLETED (`ValueError` otherwise),
then publish it to QMIB; a client failure propagates unchanged. The record's
serialized payload is carried over the wire, which the transcript abstracts. -/
def publish_batch_completion (s : Store) (id : String)
    (outcomes : Nat → AttemptOutcome) : Except MESError (Option Payload) :=
  match get s id with
  | .error e => .error e
  | .ok r =>
    if r.status ≠ BatchStatus.completed then
      .error (.valueError "Only completed batch records can be published to QMIB")
    else (publish_batch_record outcomes).1

/-- `IntegrationService.update_batch_status`: take `now = datetime.utcnow()`,
commit the local status update with that timestamp, then — only for a
COMPLETED target — publish to QMIB. The local commit is already durable when
the publish runs, so a publish failure is returned alongside the *updated*
store. -/
def update_batch_status (s : Store) (id : String) (status : BatchStatus)
    (now : Nat) (outcomes : Nat → AttemptOutcome) :
    Store × Except MESError BatchRecord :=
  match update_status s id status (some now) with
  | (s', .error e) => (s', .error e)
  | (s', .ok r) =>
    if status = BatchStatus.completed then
      match publish_batch_completion s' id outcomes with
      | .error e => (s', .error e)
      | .ok _ => (s', .ok r)
    else (s', .ok r)

/-! ### Concrete transcripts used as witnesses and counterexamples -/

/-- Every attempt returns an HTTP 500 response (server error, empty body). -/
def alwaysServerError : Nat → AttemptOutcome := fun _ => .response ⟨500, none⟩

/-- Every attempt returns an HTTP 200 response with an empty body. -/
def emptyBodySuccess : Nat → AttemptOutcome := fun _ => .response ⟨200, none⟩

/-- Every attempt returns an HTTP 401 response. -/
def authRejected : Nat → AttemptOutcome := fun _ => .response ⟨401, none⟩

/-- Two transport failures, then a 200 response with a nonempty body. -/
def failFailSuccess : Nat → AttemptOutcome := fun n =>
  if n = 0 then .transportError ⟨"connection reset"⟩
  else if n = 1 then .transportError ⟨"read timeout"⟩
  else .response ⟨200, some [("ack", .str "ok")]⟩

/-- Three (distinguishable) consecutive transport failures. -/
def threeFailures : Nat → AttemptOutcome := fun n =>
  if n = 0 then .transportError ⟨"timeout 1"⟩
  else if n = 1 then .transportError ⟨"timeout 2"⟩
  else .transportError ⟨"timeout 3"⟩

/-! ### Behaviour of the retry loop -/

/-- When the first `k` attempts raise transport errors and attempt `k` (with
`k` inside the 3-attempt budget) delivers a response, the tenacity loop stops
right there with that response after exactly `k + 1` attempts. -/
lemma runAttempts_first_response (outcomes : Nat → AttemptOutcome) (k : Nat)
    (r : HttpResp) (hk : k < 3) (hresp : outcomes k = .response r)
    (hprev : ∀ i, i < k → ∃ e, outcomes i = .transportError e) :
    runAttempts outcomes 0 3 = .ok (r, k + 1) := by
  have hk3 : k = 0 ∨ k = 1 ∨ k = 2 := by omega
  rcases hk3 with h | h | h <;> subst h
  · simp [runAttempts, hresp]
  · obtain ⟨e0, h0⟩ := hprev 0 (by omega)
    simp [runAttempts, h0, hresp]
  · obtain ⟨e0, h0⟩ := hprev 0 (by omega)
    obtain ⟨e1, h1⟩ := hprev 1 (by omega)
    simp [runAttempts, h0, h1, hresp]

/-- Once the loop has delivered a response, `_request` post-processes it:
401 → authentication failure, other non-2xx → status error, 2xx → body. -/
lemma qmibRequest_first_response (outcomes : Nat → AttemptOutcome) (k : Nat)
    (r : HttpResp) (hk : k < 3) (hresp : outcomes k = .response r)
    (hprev : ∀ i, i < k → ∃ e, outcomes i = .transportError e) :
    qmibRequest outcomes =
      ((if r.status = 401 then .error .authFailure
        else if 200 ≤ r.status ∧ r.status < 300 then .ok r.body
        else .error (.httpStatus r.status)), k + 1) := by
  unfold qmibRequest
  simp only [runAttempts_first_response outcomes k r hk hresp hprev]
  split_ifs <;> rfl

/-- C1, as written, is refuted here: with every attempt answering HTTP 500
(a non-2xx, non-401 response) and a full 3-attempt budget available, the
client makes exactly one attempt and raises the HTTP status error immediately
— `raise_for_status` runs after the retry loop, so a non-2xx response is never
retried. -/
theorem c1_counterexample :
    qmibRequest alwaysServerError = (.error (.httpStatus 500), 1) := rfl

/-- C1 (amended): retry applies exactly to transport-level exceptions raised
while sending the request; the moment any HTTP response is received the
attempt loop ends — after `k` transport failures and a response on attempt
`k`, exactly `k + 1` attempts are made regardless of remaining budget, a
non-2xx non-401 response raises an HTTP status error with no further attempt,
and a 2xx response returns the body. -/
theorem c1_retry_only_transport (outcomes : Nat → AttemptOutcome) (k : Nat)
    (r : HttpResp) (hk : k < 3) (hresp : outcomes k = .response r)
    (hprev : ∀ i, i < k → ∃ e, outcomes i = .transportError e) :
    (qmibRequest outcomes).2 = k + 1 ∧
    (r.status ≠ 401 → ¬(200 ≤ r.status ∧ r.status < 300) →
      (qmibRequest outcomes).1 = .error (.httpStatus r.status)) ∧
    (200 ≤ r.status ∧ r.status < 300 →
      (qmibRequest outcomes).1 = .ok r.body) := by
  rw [qmibRequest_first_response outcomes k r hk hresp hprev]
  refine ⟨rfl, ?_, ?_⟩
  · intro h401 h2xx
    simp [h401, h2xx]
  · intro h2xx
    have h401 : ¬ r.status = 401 := by omega
    simp [h401, h2xx]

/-- Witness for the amended C1: a 500 response on the very first attempt is
raised at once, with two attempts of budget left unused. -/
theorem c1_retry_only_transport_witness :
    (qmibRequest alwaysServerError).2 = 0 + 1 ∧
    (qmibRequest alwaysServerError).1 = .error (.httpStatus 500) := by
  have h := c1_retry_only_transport alwaysServerError 0 ⟨500, none⟩ (by omega) rfl
    (by intro i hi; exact absurd hi (Nat.not_lt_zero i))
  exact ⟨h.1, h.2.1 (by decide) (by decide)⟩

/-- C3: two transport failures followed by a successful (2xx) response give
exactly 3 attempts and the response body; three consecutive transport
failures give exactly 3 attempts and re-raise the third failure unchanged —
attempt index 3 is never consulted, since `outcomes` is only constrained at
indices 0, 1 and 2. -/
theorem c3_attempt_budget (outcomes : Nat → AttemptOutcome)
    (e0 e1 e2 : TransportErr) (r : HttpResp) :
    ((outcomes 0 = .transportError e0 ∧ outcomes 1 = .transportError e1 ∧
        outcomes 2 = .response r ∧ 200 ≤ r.status ∧ r.status < 300) →
      qmibRequest outcomes = (.ok r.body, 3)) ∧
    ((outcomes 0 = .transportError e0 ∧ outcomes 1 = .transportError e1 ∧
        outcomes 2 = .transportError e2) →
      qmibRequest outcomes = (.error (.transport e2), 3)) := by
  constructor
  · rintro ⟨h0, h1, h2, hlo, hhi⟩
    have hprev : ∀ i, i < 2 → ∃ e, outcomes i = .transportError e := by
      intro i hi
      have hi2 : i = 0 ∨ i = 1 := by omega
      rcases hi2 with h | h <;> subst h
      · exact ⟨e0, h0⟩
      · exact ⟨e1, h1⟩
    rw [qmibRequest_first_response outcomes 2 r (by omega) h2 hprev]
    have h401 : ¬ r.status = 401 := by omega
    simp [h401, hlo, hhi]
  · rintro ⟨h0, h1, h2⟩
    unfold qmibRequest
    simp [runAttempts, h0, h1, h2]

/-- Witness for C3: both transcript shapes evaluated concretely. -/
theorem c3_attempt_budget_witness :
    qmibRequest failFailSuccess = (.ok (some [("ack", .str "ok")]), 3) ∧
    qmibRequest threeFailures = (.error (.transport ⟨"timeout 3"⟩), 3) :=
  ⟨(c3_attempt_budget failFailSuccess ⟨"connection reset"⟩ ⟨"read timeout"⟩
      ⟨"unused"⟩ ⟨200, some [("ack", .str "ok")]⟩).1 ⟨rfl, rfl, rfl, by decide, by decide⟩,
   (c3_attempt_budget threeFailures ⟨"timeout 1"⟩ ⟨"timeout 2"⟩
      ⟨"timeout 3"⟩ ⟨0, none⟩).2 ⟨rfl, rfl, rfl⟩⟩

/-- C4: a received 401 response raises `QMIBAuthenticationError` after the
attempt it arrived on, with no further retry even when the 3-attempt budget is
not exhausted (`k + 1` attempts for a 401 on attempt `k`). -/
theorem c4_auth_no_retry (outcomes : Nat → AttemptOutcome) (k : Nat)
    (b : Option Payload) (hk : k < 3)
    (hresp : outcomes k = .response ⟨401, b⟩)
    (hprev : ∀ i, i < k → ∃ e, outcomes i = .transportError e) :
    qmibRequest outcomes = (.error .authFailure, k + 1) := by
  rw [qmibRequest_first_response outcomes k ⟨401, b⟩ hk hresp hprev]
  rfl

/-- Witness for C4: a 401 on the very first attempt ends the call after one
attempt, two attempts of budget left unused. -/
theorem c4_auth_no_retry_witness :
    qmibRequest authRejected = (.error .authFailure, 0 + 1) :=
  c4_auth_no_retry authRejected 0 none (by omega) rfl
    (by intro i hi; exact absurd hi (Nat.not_lt_zero i))

/-- C5, as written, is refuted here: a successful (HTTP 200) exchange whose
response body is empty returns `none` — the Python `None`, not a mapping —
because `_request` returns `response.json()` only when `response.content` is
nonempty. -/
theorem c5_counterexample :
    (qmibRequest emptyBodySuccess).1 = Except.ok none ∧
    (Except.ok (none : Option Payload) : Except MESError (Option Payload)) ≠
      Except.ok (some []) := by
  exact ⟨rfl, by simp⟩

/-- C5 (amended): for each of the four remote operations, a successful (2xx)
exchange returns the parsed JSON mapping when the response body is nonempty
and `None` when the body is empty (`r.body` is exactly that option). -/
theorem c5_success_returns_body (outcomes : Nat → AttemptOutcome) (k : Nat)
    (r : HttpResp) (hk : k < 3) (hresp : outcomes k = .response r)
    (hprev : ∀ i, i < k → ∃ e, outcomes i = .transportError e)
    (h2xx : 200 ≤ r.status ∧ r.status < 300) :
    (fetch_equipment_state outcomes).1 = .ok r.body ∧
    (publish_batch_record outcomes).1 = .ok r.body ∧
    (fetch_batch_template outcomes).1 = .ok r.body ∧
    (acknowledge_event outcomes).1 = .ok r.body := by
  have hq : (qmibRequest outcomes).1 = .ok r.body := by
    rw [qmibRequest_first_response outcomes k r hk hresp hprev]
    have h401 : ¬ r.status = 401 := by omega
    simp [h401, h2xx]
  exact ⟨hq, hq, hq, hq⟩

/-! ### Store-level helper lemmas -/

/-- A record found by primary-key lookup carries that key. -/
lemma batch_id_of_find? {s : Store} {id : String} {r : BatchRecord}
    (h : s.find? (keyIs id) = some r) : r.batch_id = id := by
  have := List.find?_some h
  simpa [keyIs] using this

/-- Replacing the row found under a key makes the replacement the row found
under that key, provided the replacement keeps the key. -/
lemma find?_replaceById (s : Store) (id : String) (r r' : BatchRecord)
    (hfind : s.find? (keyIs id) = some r) (hid : r'.batch_id = r.batch_id) :
    (replaceById s id r').find? (keyIs id) = some r' := by
  induction s with
  | nil => simp at hfind
  | cons q rest ih =>
    by_cases hq : keyIs id q = true
    · rw [List.find?_cons_of_pos _ hq] at hfind
      injection hfind with hqr
      subst hqr
      have hr' : keyIs id r' = true := by
        simp only [keyIs, beq_iff_eq] at hq ⊢
        rw [hid, hq]
      simp only [replaceById, if_pos hq]
      exact List.find?_cons_of_pos _ hr'
    · rw [List.find?_cons_of_neg _ hq] at hfind
      simp only [replaceById, if_neg hq]
      rw [List.find?_cons_of_neg _ hq]
      exact ih hfind

/-- Unfolding `update_status` when the key is present. -/
lemma update_status_found (s : Store) (id : String) (r : BatchRecord)
    (st : BatchStatus) (ts : Option Nat) (hfind : s.find? (keyIs id) = some r) :
    update_status s id st ts =
      (replaceById s id (applyStatusUpdate r st ts),
       .ok (applyStatusUpdate r st ts)) := by
  unfold update_status
  rw [hfind]

/-- Computing the status-update rules at IN_PROGRESS with a timestamp. -/
lemma applyStatusUpdate_in_progress (r : BatchRecord) (t : Nat) :
    applyStatusUpdate r .in_progress (some t) =
      { r with status := .in_progress, started_at := some t } := rfl

/-- Computing the status-update rules at COMPLETED with a timestamp. -/
lemma applyStatusUpdate_completed (r : BatchRecord) (t : Nat) :
    applyStatusUpdate r .completed (some t) =
      { r with status := .completed, completed_at := some t } := rfl

/-- Without a timestamp the status-update rules touch only `status`. -/
lemma applyStatusUpdate_none (r : BatchRecord) (st : BatchStatus) :
    applyStatusUpdate r st none = { r with status := st } := by
  cases st <;> rfl

/-- The status-update rules never touch identity, recipe, data or
equipment. -/
lemma applyStatusUpdate_frame (r : BatchRecord) (st : BatchStatus)
    (ts : Option Nat) :
    (applyStatusUpdate r st ts).batch_id = r.batch_id ∧
    (applyStatusUpdate r st ts).recipe_id = r.recipe_id ∧
    (applyStatusUpdate r st ts).data = r.data ∧
    (applyStatusUpdate r st ts).equipment = r.equipment := by
  cases st <;> cases ts <;> exact ⟨rfl, rfl, rfl, rfl⟩

/-- `get` succeeds with `r` exactly when the primary-key lookup finds `r`. -/
lemma get_ok_iff (s : Store) (id : String) (r : BatchRecord) :
    get s id = .ok r ↔ s.find? (keyIs id) = some r := by
  unfold get
  cases hfs : s.find? (keyIs id) <;> simp

/-- `get` skips a head row whose key does not match. -/
lemma get_cons_neg (q : BatchRecord) (rest : Store) (id : String)
    (hq : ¬ keyIs id q = true) : get (q :: rest) id = get rest id := by
  unfold get
  rw [List.find?_cons_of_neg _ hq]

/-- Overwriting every mutable column from `rec` on a row that already carries
`rec`'s key yields exactly `rec`. -/
lemma applyUpsertFields_self (old rec : BatchRecord)
    (h : old.batch_id = rec.batch_id) : applyUpsertFields old rec = rec := by
  cases rec
  simp_all [applyUpsertFields]

/-- The freshly constructed row of the insert branch of `upsert_record` equals
the incoming record. -/
lemma upsert_new_row (rec : BatchRecord) :
    applyUpsertFields { batch_id := rec.batch_id, recipe_id := rec.recipe_id }
      rec = rec :=
  applyUpsertFields_self _ rec rfl

/-- `upsert_record` leaves a non-matching head row alone. -/
lemma upsert_cons_neg (q : BatchRecord) (rest : Store) (rec : BatchRecord)
    (hq : keyIs rec.batch_id q = false) :
    upsert_record (q :: rest) rec = q :: upsert_record rest rec := by
  unfold upsert_record
  simp only [List.any_cons, hq, Bool.false_or]
  by_cases h : rest.any (keyIs rec.batch_id)
  · simp only [h, if_true]
    simp [upsertReplace, hq]
  · simp only [h, if_false]
    simp

/-! ### Store and orchestrator claims -/

/-- Demo row and one-row table used by the concrete witnesses below. -/
def demoRec : BatchRecord :=
  { batch_id := "B1", recipe_id := "R1", status := .planned,
    started_at := none, completed_at := none,
    data := [("temp", .int 72)], equipment := ["E1", "E2"] }

def demoStore : Store := [demoRec]

/-- C2: with the target record present, `update_batch_status(id, COMPLETED)`
commits the local transition first; when the remote publish fails with any
error `e`, that error is returned to the caller unchanged while the store
keeps the committed row, so a subsequent `get` still returns the record with
status COMPLETED and `completed_at` set to the call timestamp. -/
theorem c2_completed_publish_failure (s : Store) (id : String)
    (r : BatchRecord) (now : Nat) (outcomes : Nat → AttemptOutcome)
    (e : MESError) (hget : get s id = .ok r)
    (hfail : (qmibRequest outcomes).1 = .error e) :
    update_batch_status s id .completed now outcomes =
      (replaceById s id { r with status := .completed, completed_at := some now },
       .error e) ∧
    get (replaceById s id
          { r with status := .completed, completed_at := some now }) id =
      .ok { r with status := .completed, completed_at := some now } := by
  have hfind : s.find? (keyIs id) = some r := (get_ok_iff s id r).1 hget
  have hfind' :
      (replaceById s id
        { r with status := BatchStatus.completed, completed_at := some now
          }).find? (keyIs id) =
        some { r with status := BatchStatus.completed, completed_at := some now } :=
    find?_replaceById s id r _ hfind rfl
  have hget' :
      get (replaceById s id
        { r with status := BatchStatus.completed, completed_at := some now }) id =
      .ok { r with status := BatchStatus.completed, completed_at := some now } := by
    unfold get
    rw [hfind']
  have hupd : update_status s id .completed (some now) =
      (replaceById s id
        { r with status := BatchStatus.completed, completed_at := some now },
       .ok { r with status := BatchStatus.completed, completed_at := some now }) := by
    rw [update_status_found s id r _ _ hfind, applyStatusUpdate_completed]
  refine ⟨?_, hget'⟩
  have hpub : publish_batch_completion
      (replaceById s id
        { r with status := BatchStatus.completed, completed_at := some now })
      id outcomes = .error e := by
    unfold publish_batch_completion
    rw [hget']
    simp only [ne_eq, not_true_eq_false, ite_false]
    exact hfail
  unfold update_batch_status
  rw [hupd]
  simp [hpub]

/-- Witness for C2: transitioning the demo record to COMPLETED while every
publish attempt times out returns the third transport failure, yet the stored
row is COMPLETED with its completion timestamp. -/
theorem c2_completed_publish_failure_witness :
    update_batch_status demoStore "B1" .completed 7 threeFailures =
      (replaceById demoStore "B1"
        { demoRec with status := .completed, completed_at := some 7 },
       .error (.transport ⟨"timeout 3"⟩)) ∧
    get (replaceById demoStore "B1"
          { demoRec with status := .completed, completed_at := some 7 }) "B1" =
      .ok { demoRec with status := .completed, completed_at := some 7 } :=
  c2_completed_publish_failure demoStore "B1" demoRec 7 threeFailures
    (.transport ⟨"timeout 3"⟩) rfl rfl

/-- C6: on an existing record, `update_status` with IN_PROGRESS and a supplied
timestamp `t` (≥ the time `ct` of the call, as the orchestrator passes
`utcnow`) sets `started_at := t` and leaves `completed_at` at its prior value;
with COMPLETED it sets `completed_at := t` and leaves `started_at` at its
prior value; and every `update_status` call preserves `batch_id`, `recipe_id`,
`data` and `equipment`. -/
theorem c6_timestamp_rules (s : Store) (id : String) (r : BatchRecord)
    (ct t : Nat) (hfind : s.find? (keyIs id) = some r) (hct : ct ≤ t) :
    (update_status s id .in_progress (some t) =
      (replaceById s id { r with status := .in_progress, started_at := some t },
       .ok { r with status := .in_progress, started_at := some t }) ∧
     ∃ u, ({ r with status := BatchStatus.in_progress, started_at := some t
             } : BatchRecord).started_at = some u ∧ ct ≤ u) ∧
    (update_status s id .completed (some t) =
      (replaceById s id { r with status := .completed, completed_at := some t },
       .ok { r with status := .completed, completed_at := some t }) ∧
     ∃ u, ({ r with status := BatchStatus.completed, completed_at := some t
             } : BatchRecord).completed_at = some u ∧ ct ≤ u) ∧
    (∀ (st : BatchStatus) (ts : Option Nat),
      (update_status s id st ts).2.map
          (fun q => (q.batch_id, q.recipe_id, q.data, q.equipment)) =
        .ok (r.batch_id, r.recipe_id, r.data, r.equipment)) := by
  refine ⟨⟨?_, ⟨t, rfl, hct⟩⟩, ⟨?_, ⟨t, rfl, hct⟩⟩, ?_⟩
  · rw [update_status_found s id r _ _ hfind, applyStatusUpdate_in_progress]
  · rw [update_status_found s id r _ _ hfind, applyStatusUpdate_completed]
  · intro st ts
    rw [update_status_found s id r st ts hfind]
    obtain ⟨h1, h2, h3, h4⟩ := applyStatusUpdate_frame r st ts
    simp [Except.map, h1, h2, h3, h4]

/-- Witness for C6: the demo record driven to IN_PROGRESS and to COMPLETED at
time 5 (call time 2). -/
theorem c6_timestamp_rules_witness :
    update_status demoStore "B1" .in_progress (some 5) =
      (replaceById demoStore "B1"
        { demoRec with status := .in_progress, started_at := some 5 },
       .ok { demoRec with status := .in_progress, started_at := some 5 }) ∧
    update_status demoStore "B1" .completed (some 5) =
      (replaceById demoStore "B1"
        { demoRec with status := .completed, completed_at := some 5 },
       .ok { demoRec with status := .completed, completed_at := some 5 }) :=
  ⟨(c6_timestamp_rules demoStore "B1" demoRec 2 5 rfl (by omega)).1.1,
   (c6_timestamp_rules demoStore "B1" demoRec 2 5 rfl (by omega)).2.1.1⟩

/-- C7: `update_status` on an absent `batch_id` raises `KeyError` for every
target status and timestamp, and returns the store unchanged — the lookup
fails before any row is written. -/
theorem c7_missing_id_no_mutation (s : Store) (id : String) (st : BatchStatus)
    (ts : Option Nat) (habs : s.find? (keyIs id) = none) :
    update_status s id st ts = (s, .error (.keyError (notFoundMsg id))) := by
  unfold update_status
  rw [habs]

/-- Witness for C7: updating the unknown id B9 in the demo table fails with
`KeyError` and leaves the table as it was. -/
theorem c7_missing_id_no_mutation_witness :
    update_status demoStore "B9" .completed (some 3) =
      (demoStore, .error (.keyError (notFoundMsg "B9"))) :=
  c7_missing_id_no_mutation demoStore "B9" .completed (some 3) rfl

/-- C8: `upsert_record` followed by `get` on the same `batch_id` returns the
upserted record, and an upsert rewrites no key: the stored key sequence is
unchanged when the id already exists (all mutable fields of that row having
been replaced, per the first conjunct) and is extended by exactly the new id
otherwise. -/
theorem c8_upsert_get_roundtrip (s : Store) (rec : BatchRecord) :
    get (upsert_record s rec) rec.batch_id = .ok rec ∧
    (upsert_record s rec).map BatchRecord.batch_id =
      (if s.any (keyIs rec.batch_id) then s.map BatchRecord.batch_id
       else s.map BatchRecord.batch_id ++ [rec.batch_id]) := by
  induction s with
  | nil =>
    have hrow := upsert_new_row rec
    constructor
    · simp [upsert_record, hrow, get, keyIs]
    · simp [upsert_record, hrow]
  | cons q rest ih =>
    by_cases hq : keyIs rec.batch_id q = true
    · have hqid : q.batch_id = rec.batch_id := by simpa [keyIs] using hq
      have hrepl : upsert_record (q :: rest) rec =
          applyUpsertFields q rec :: rest := by
        simp [upsert_record, List.any_cons, hq, upsertReplace]
      have happ : applyUpsertFields q rec = rec :=
        applyUpsertFields_self q rec hqid
      constructor
      · rw [hrepl, happ]
        unfold get
        rw [List.find?_cons_of_pos _ (by simp [keyIs])]
      · rw [hrepl, happ]
        simp [List.any_cons, hq, hqid]
    · have hq' : keyIs rec.batch_id q = false := by
        simpa using hq
      have hstep := upsert_cons_neg q rest rec hq'
      constructor
      · rw [hstep, get_cons_neg q _ rec.batch_id hq]
        exact ih.1
      · rw [hstep]
        rw [List.map_cons, ih.2]
        by_cases h : rest.any (keyIs rec.batch_id) <;>
          simp [List.any_cons, hq', h]

/-- C9: the template adapter deterministically builds the new record: target
id as `batch_id`, template `id` as `recipe_id` (defaulting to
"unknown-recipe" when absent), `defaultData` as `data` (empty when absent),
`equipment` as the equipment list (empty when absent), status PLANNED, and
both timestamps unset — absent keys default rather than fail. -/
theorem c9_template_adapter (tpl : TemplatePayload) (bid : String) :
    (record_from_template tpl bid).batch_id = bid ∧
    (∀ s, tpl.id = some s → (record_from_template tpl bid).recipe_id = s) ∧
    (tpl.id = none → (record_from_template tpl bid).recipe_id = "unknown-recipe") ∧
    (∀ d, tpl.defaultData = some d → (record_from_template tpl bid).data = d) ∧
    (tpl.defaultData = none → (record_from_template tpl bid).data = []) ∧
    (∀ e, tpl.equipment = some e → (record_from_template tpl bid).equipment = e) ∧
    (tpl.equipment = none → (record_from_template tpl bid).equipment = []) ∧
    (record_from_template tpl bid).status = .planned ∧
    (record_from_template tpl bid).started_at = none ∧
    (record_from_template tpl bid).completed_at = none := by
  refine ⟨rfl, ?_, ?_, ?_, ?_, ?_, ?_, rfl, rfl, rfl⟩
  · intro v h; simp [record_from_template, h]
  · intro h; simp [record_from_template, h]
  · intro v h; simp [record_from_template, h]
  · intro h; simp [record_from_template, h]
  · intro v h; simp [record_from_template, h]
  · intro h; simp [record_from_template, h]

/-- Template payload of the spec's worked example. -/
def demoTemplate : TemplatePayload :=
  { id := some "R7", defaultData := some [("temp", .int 72)],
    equipment := some ["E1", "E2"] }

/-- Witness for C9: the spec's two worked examples — a fully populated
template and the empty payload. -/
theorem c9_template_adapter_witness :
    (record_from_template demoTemplate "B100").recipe_id = "R7" ∧
    (record_from_template ⟨none, none, none⟩ "B101").recipe_id = "unknown-recipe" ∧
    (record_from_template ⟨none, none, none⟩ "B101").data = [] ∧
    (record_from_template ⟨none, none, none⟩ "B101").equipment = [] :=
  ⟨(c9_template_adapter demoTemplate "B100").2.1 "R7" rfl,
   (c9_template_adapter ⟨none, none, none⟩ "B101").2.2.1 rfl,
   (c9_template_adapter ⟨none, none, none⟩ "B101").2.2.2.2.1 rfl,
   (c9_template_adapter ⟨none, none, none⟩ "B101").2.2.2.2.2.2.1 rfl⟩

/-- C10: when `update_status` is called without a timestamp (`None`), only
`status` changes: `started_at` and `completed_at` keep their prior values for
every target status, the timestamp guards being conjoined with a truthy
timestamp. -/
theorem c10_no_timestamp_only_status (s : Store) (id : String)
    (r : BatchRecord) (st : BatchStatus)
    (hfind : s.find? (keyIs id) = some r) :
    update_status s id st none =
      (replaceById s id { r with status := st }, .ok { r with status := st }) := by
  rw [update_status_found s id r st none hfind, applyStatusUpdate_none]

/-- Witness for C10: the demo record moved to IN_PROGRESS and to COMPLETED
without a timestamp keeps both timestamps (here `none`) untouched. -/
theorem c10_no_timestamp_only_status_witness :
    update_status demoStore "B1" .in_progress none =
      (replaceById demoStore "B1" { demoRec with status := .in_progress },
       .ok { demoRec with status := .in_progress }) ∧
    update_status demoStore "B1" .completed none =
      (replaceById demoStore "B1" { demoRec with status := .completed },
       .ok { demoRec with status := .completed }) :=
  ⟨c10_no_timestamp_only_status demoStore "B1" demoRec .in_progress rfl,
   c10_no_timestamp_only_status demoStore "B1" demoRec .completed rfl⟩

/-- Witness for the amended C5: a 200 response with a nonempty JSON body on
the first attempt yields that mapping from all four operations. -/
theorem c5_success_returns_body_witness :
    (fetch_equipment_state failFailSuccess).1 = .ok (some [("ack", .str "ok")]) ∧
    (publish_batch_record failFailSuccess).1 = .ok (some [("ack", .str "ok")]) ∧
    (fetch_batch_template failFailSuccess).1 = .ok (some [("ack", .str "ok")]) ∧
    (acknowledge_event failFailSuccess).1 = .ok (some [("ack", .str "ok")]) :=
  c5_success_returns_body failFailSuccess 2 ⟨200, some [("ack", .str "ok")]⟩
    (by omega) rfl
    (by
      intro i hi
      have hi2 : i = 0 ∨ i = 1 := by omega
      rcases hi2 with h | h <;> subst h
      · exact ⟨⟨"connection reset"⟩, rfl⟩
      · exact ⟨⟨"read timeout"⟩, rfl⟩)
    (by decide)

end MES
